import Mathlib

/-!
Verification development for the si-pool-noodle sandbox pool manager.

Shallow embedding of `lib/si-pool-noodle/src/pool_noodle.rs` (pool controller:
construction, task handling, checkout) and
`lib/si-pool-noodle/src/instance/cyclone/local_uds.rs` (instance health,
spawn handshake, backend runtimes).

Modelling conventions:
- Rust `u32` counters are `Nat` (no arithmetic here approaches 2^32, and
  `saturating_sub` coincides with `Nat` subtraction).
- `Result<T, E>` is `Except E T`; backend lifecycle outcomes whose error
  payloads are only logged are modelled as `Bool` (`true` = `Ok`).
- The lock-free `crossbeam` `ArrayQueue` is a FIFO `List` with an explicit
  capacity: `push` on a full queue is a no-op (the source logs and drops).
- Async scheduling, sleeping and logging are not modelled; loops that poll a
  shared queue are modelled as functions of the finite trace of pop results.
-/

set_option linter.unusedVariables false

namespace SiPoolNoodle

/-- Modelled from the spec: `errors.rs` is not under `src/`; the error
taxonomy of spec section 7 gives a pool-starved variant plus wrappers for
backend lifecycle failures. `pool_noodle.rs` (in `src/`) returns
`PoolNoodleError::ExecutionPoolStarved` from `get` and uses the wrapping
variants in `check_health`. -/
inductive PoolNoodleError (E : Type) where
  | executionPoolStarved
  | unhealthy (e : E)
  | instanceClean (e : E)
  | instancePrepare (e : E)
  | instanceSpawn (e : E)
  | instanceTerminate (e : E)
  | instanceSetup (e : E)
deriving DecidableEq

/-- Modelled from the spec: `lifeguard.rs` is not under `src/`. The checkout
guard owns exactly one instance; `get` wraps a healthy popped instance in it
(`LifeGuard::new(Some(instance), inner)` in `pool_noodle.rs`). The reference
to the pool inner held by the guard is not represented. -/
structure LifeGuard (I : Type) where
  inst : I
deriving DecidableEq

/-- Backend capability interface, from the `Spec` trait (`clean`, `prepare`,
`spawn`) together with the `Instance` trait's `terminate` and `id`
(`instance.rs` declarations are exercised by `pool_noodle.rs` in `src/`).
Outcomes are per-input deterministic: `true`/`some` is `Ok`. -/
structure SpecModel (I : Type) where
  clean : Nat → Bool
  prepare : Nat → Bool
  spawn : Nat → Option I
  terminate : I → Bool
  instId : I → Nat

/-- Modelled from the spec: `task.rs` is not under `src/`. A task is a tagged
value Clean(id) / Prepare(id) / Drop(instance); `pool_noodle.rs` constructs
drop tasks as `PoolNoodleTask::new(Some(instance), instance.id(), spec)`, so
the drop variant carries the instance and its captured id. -/
inductive PoolNoodleTaskType (I : Type) where
  | clean (id : Nat)
  | prepare (id : Nat)
  | drop (inst : I) (id : Nat)
deriving DecidableEq

/-- Configuration for the pool, from `PoolNoodleConfig` in `pool_noodle.rs`
(the shutdown token and backend spec value are not represented; the backend
is a separate `SpecModel` argument to the functions that use it). -/
structure PoolNoodleConfig where
  checkHealth : Bool
  maxConcurrency : Nat
  poolSize : Nat
  retryLimit : Nat

/-- State of `PoolNoodleInner` from `pool_noodle.rs`: the two bounded
queues with their `ArrayQueue` capacities, plus the retry limit. -/
structure PoolNoodleInner (I : Type) where
  workCapacity : Nat
  readyCapacity : Nat
  workQueue : List (PoolNoodleTaskType I)
  readyQueue : List I
  retryLimit : Nat
deriving DecidableEq

/-- Push on a capacity-bounded FIFO queue: `ArrayQueue::push`, which fails
(and the caller drops the element) when the queue is full. -/
def boundedPush {α : Type} (cap : Nat) (q : List α) (x : α) : List α :=
  if q.length < cap then q ++ [x] else q

/-- `PoolNoodleInner::push_clean_task_to_work_queue`. -/
def pushCleanTaskToWorkQueue {I : Type} (s : PoolNoodleInner I) (id : Nat) :
    PoolNoodleInner I :=
  { s with workQueue := boundedPush s.workCapacity s.workQueue (PoolNoodleTaskType.clean id) }

/-- `PoolNoodleInner::push_prepare_task_to_work_queue`. -/
def pushPrepareTaskToWorkQueue {I : Type} (s : PoolNoodleInner I) (id : Nat) :
    PoolNoodleInner I :=
  { s with workQueue := boundedPush s.workCapacity s.workQueue (PoolNoodleTaskType.prepare id) }

/-- `PoolNoodleInner::push_drop_task_to_work_queue`: the drop task captures
`instance.id()`. -/
def pushDropTaskToWorkQueue {I : Type} (b : SpecModel I) (s : PoolNoodleInner I) (inst : I) :
    PoolNoodleInner I :=
  { s with workQueue :=
      boundedPush s.workCapacity s.workQueue (PoolNoodleTaskType.drop inst (b.instId inst)) }

/-- `PoolNoodleInner::push_to_ready_queue`. -/
def pushToReadyQueue {I : Type} (s : PoolNoodleInner I) (inst : I) : PoolNoodleInner I :=
  { s with readyQueue := boundedPush s.readyCapacity s.readyQueue inst }

/-- `PoolNoodleInner::handle_clean`: on `Ok` enqueue Prepare(id), on `Err`
log and re-enqueue Clean(id). The task's clean call delegates to the backend
(`task.rs` is not under `src/`; spec section 4.3: Clean(id) calls backend
clean(id)). -/
def handleClean {I : Type} (b : SpecModel I) (s : PoolNoodleInner I) (id : Nat) :
    PoolNoodleInner I :=
  if b.clean id then pushPrepareTaskToWorkQueue s id else pushCleanTaskToWorkQueue s id

/-- `PoolNoodleInner::handle_drop`: on `Ok` of terminate re-enqueue
Clean(id); on `Err` only log — nothing is enqueued. -/
def handleDrop {I : Type} (b : SpecModel I) (s : PoolNoodleInner I) (inst : I) (id : Nat) :
    PoolNoodleInner I :=
  if b.terminate inst then pushCleanTaskToWorkQueue s id else s

/-- `PoolNoodleInner::handle_prepare`: prepare, then on success immediately
spawn; spawn success pushes the instance to the ready queue, spawn or
prepare failure re-enqueues Clean(id). -/
def handlePrepare {I : Type} (b : SpecModel I) (s : PoolNoodleInner I) (id : Nat) :
    PoolNoodleInner I :=
  if b.prepare id then
    match b.spawn id with
    | some inst => pushToReadyQueue s inst
    | none => pushCleanTaskToWorkQueue s id
  else pushCleanTaskToWorkQueue s id

/-- `PoolNoodleInner::handle_task`: exhaustive dispatch on the task tag. -/
def handleTask {I : Type} (b : SpecModel I) (s : PoolNoodleInner I) :
    PoolNoodleTaskType I → PoolNoodleInner I
  | PoolNoodleTaskType.clean id => handleClean b s id
  | PoolNoodleTaskType.drop inst id => handleDrop b s inst id
  | PoolNoodleTaskType.prepare id => handlePrepare b s id

/-- `PoolNoodleInner::new`: both `ArrayQueue`s are created with capacity
`config.pool_size`, empty. -/
def PoolNoodleInner.new {I : Type} (config : PoolNoodleConfig) : PoolNoodleInner I :=
  { workCapacity := config.poolSize
    readyCapacity := config.poolSize
    workQueue := []
    readyQueue := []
    retryLimit := config.retryLimit }

/-- The seeding loop of `PoolNoodle::new`: push one Clean task per id in the
given order. -/
def seedCleanTasks {I : Type} (s : PoolNoodleInner I) : List Nat → PoolNoodleInner I
  | [] => s
  | id :: rest => seedCleanTasks (pushCleanTaskToWorkQueue s id) rest

/-- `PoolNoodle::new`: build the inner state then push a Clean task for each
id in `1..=pool_size`. -/
def PoolNoodle.new {I : Type} (config : PoolNoodleConfig) : PoolNoodleInner I :=
  seedCleanTasks (PoolNoodleInner.new config) (List.range' 1 config.poolSize)

/-- Fixed sleep between `get` retries, milliseconds
(`sleep(Duration::from_millis(10))` in `PoolNoodle::get`). -/
def getRetryDelayMillis : Nat := 10

/-- The retry loop of `PoolNoodle::get`. The loop races with the worker
pool, so the successive results of `ready_queue.pop()` are an input trace
`pops` (`some inst` = popped, `none` = queue empty at that instant), and
`healthy inst` is the outcome of `instance.ensure_healthy()`. Faithful to
the source loop: first check `retries >= max_retries` and fail pool-starved;
then pop; a popped healthy instance is returned in a guard; a popped
unhealthy instance is dropped and the loop continues with `retries`
unchanged; an empty pop increments `retries` and sleeps. The outer `none`
means the trace was exhausted while the loop was still running. -/
def getLoop {I E : Type} (healthy : I → Bool) (maxRetries : Nat) :
    Nat → List (Option I) → Option (Except (PoolNoodleError E) (LifeGuard I))
  | retries, pops =>
    if maxRetries ≤ retries then
      some (Except.error PoolNoodleError.executionPoolStarved)
    else
      match pops with
      | [] => none
      | some inst :: rest =>
        if healthy inst then some (Except.ok { inst := inst })
        else getLoop healthy maxRetries retries rest
      | none :: rest => getLoop healthy maxRetries (retries + 1) rest

/-- `PoolNoodle::get`: run the retry loop with `retries = 0` and
`max_retries = retry_limit`. -/
def PoolNoodle.get {I E : Type} (healthy : I → Bool) (retryLimit : Nat)
    (pops : List (Option I)) : Option (Except (PoolNoodleError E) (LifeGuard I)) :=
  getLoop healthy retryLimit 0 pops

/-- Error type of `LocalUdsInstance`, from `local_uds.rs` (the variants the
modelled operations can produce; the payload of the wrapped external
`WatchError` is abstracted to `Nat`). -/
inductive LocalUdsInstanceError where
  | childSpawn
  | noRemainingRequests
  | tempSocket
  | watch (code : Nat)
  | watchClosed
  | watchInitTimeout
  | watchShutDown
deriving DecidableEq

/-- `LocalProcessRuntime` from `local_uds.rs`; the command and child handle
are not represented, the socket path is abstracted to `Nat`. -/
structure LocalProcessRuntime where
  socket : Nat
deriving DecidableEq

/-- `LocalInstanceRuntime::id` for `LocalProcessRuntime`: always `0`. -/
def LocalProcessRuntime.id (r : LocalProcessRuntime) : Nat := 0

/-- `LocalDockerRuntime` from `local_uds.rs`; container id and socket path
abstracted to `Nat`. -/
structure LocalDockerRuntime where
  containerId : Nat
  socket : Nat
deriving DecidableEq

/-- `LocalInstanceRuntime::id` for `LocalDockerRuntime`: always `0`. -/
def LocalDockerRuntime.id (r : LocalDockerRuntime) : Nat := 0

/-- `LocalFirecrackerRuntime` from `local_uds.rs`. -/
structure LocalFirecrackerRuntime where
  vmId : Nat
  socket : Nat
deriving DecidableEq

/-- `LocalInstanceRuntime::id` for `LocalFirecrackerRuntime`: the stored
`vm_id`. -/
def LocalFirecrackerRuntime.id (r : LocalFirecrackerRuntime) : Nat := r.vmId

/-- `LocalFirecrackerRuntime::build`: stores `vm_id = id` and a socket path
derived from `id`. -/
def LocalFirecrackerRuntime.build (id : Nat) : LocalFirecrackerRuntime :=
  { vmId := id, socket := id }

/-- `LocalUdsRuntimeStrategy` from `local_uds.rs`. -/
inductive LocalUdsRuntimeStrategy where
  | localDocker
  | localFirecracker
  | localProcess
deriving DecidableEq

/-- The `Box<dyn LocalInstanceRuntime>` produced by
`runtime_instance_from_spec`, as a sum of the three concrete runtimes. -/
inductive LocalInstanceRuntime where
  | process (r : LocalProcessRuntime)
  | docker (r : LocalDockerRuntime)
  | firecracker (r : LocalFirecrackerRuntime)
deriving DecidableEq

/-- Dynamic dispatch of `LocalInstanceRuntime::id`. -/
def LocalInstanceRuntime.id : LocalInstanceRuntime → Nat
  | LocalInstanceRuntime.process r => r.id
  | LocalInstanceRuntime.docker r => r.id
  | LocalInstanceRuntime.firecracker r => r.id

/-- `runtime_instance_from_spec`: chooses the runtime by strategy. The
process and docker builders never receive the slot id; the firecracker
builder stores it. `socket` and `containerId` stand for the socket path and
the random container name. -/
def runtimeInstanceFromSpec (strategy : LocalUdsRuntimeStrategy)
    (socket : Nat) (containerId : Nat) (id : Nat) : LocalInstanceRuntime :=
  match strategy with
  | LocalUdsRuntimeStrategy.localProcess =>
    LocalInstanceRuntime.process { socket := socket }
  | LocalUdsRuntimeStrategy.localDocker =>
    LocalInstanceRuntime.docker { containerId := containerId, socket := socket }
  | LocalUdsRuntimeStrategy.localFirecracker =>
    LocalInstanceRuntime.firecracker (LocalFirecrackerRuntime.build id)

/-- `LocalUdsInstance` from `local_uds.rs`: the remaining-request counter,
the runtime, and whether the watch-loop shutdown channel has been closed
(`watch_shutdown_tx.is_closed()`). The client and temp-socket guard are not
represented. -/
structure LocalUdsInstance where
  limitRequests : Option Nat
  runtime : LocalInstanceRuntime
  watchShutdownTxClosed : Bool
deriving DecidableEq

/-- `Instance::id` for `LocalUdsInstance`: delegates to the runtime. -/
def LocalUdsInstance.id (i : LocalUdsInstance) : Nat := i.runtime.id

/-- `LocalUdsInstance::has_remaining_requests`: `Some(0)` means exhausted;
`Some(_)` or `None` (unlimited) means requests remain. -/
def LocalUdsInstance.hasRemainingRequests (i : LocalUdsInstance) : Bool :=
  match i.limitRequests with
  | some 0 => false
  | some _ => true
  | none => true

/-- `LocalUdsInstance::is_watch_shutdown_open`. -/
def LocalUdsInstance.isWatchShutdownOpen (i : LocalUdsInstance) : Bool :=
  !i.watchShutdownTxClosed

/-- `LocalUdsInstance::ensure_healthy_client`: fail `WatchShutDown` if the
shutdown channel is closed, then fail `NoRemainingRequests` if the counter
is exhausted, else `Ok`. -/
def LocalUdsInstance.ensureHealthyClient (i : LocalUdsInstance) :
    Except LocalUdsInstanceError Unit :=
  if !i.isWatchShutdownOpen then Except.error LocalUdsInstanceError.watchShutDown
  else if !i.hasRemainingRequests then Except.error LocalUdsInstanceError.noRemainingRequests
  else Except.ok ()

/-- `Instance::ensure_healthy` for `LocalUdsInstance`: delegates to
`ensure_healthy_client`. -/
def LocalUdsInstance.ensureHealthy (i : LocalUdsInstance) :
    Except LocalUdsInstanceError Unit :=
  i.ensureHealthyClient

/-- `LocalUdsInstance::count_request`: `limit_requests.saturating_sub(1)`
when set (`Nat` subtraction saturates at zero); unset stays unset. -/
def LocalUdsInstance.countRequest (i : LocalUdsInstance) : LocalUdsInstance :=
  { i with limitRequests := i.limitRequests.map (fun n => n - 1) }

/-- Common shape of every `execute_*` method in `local_uds.rs`: check
`ensure_healthy_client`, perform the request (not modelled), then
`count_request`. Returns the instance with its updated counter. -/
def LocalUdsInstance.dispatchExecution (i : LocalUdsInstance) :
    Except LocalUdsInstanceError LocalUdsInstance :=
  match i.ensureHealthyClient with
  | Except.error e => Except.error e
  | Except.ok () => Except.ok i.countRequest

/-- Sleep between watch-session connection attempts, milliseconds
(`time::sleep(Duration::from_millis(64))` in `spawn`). -/
def watchRetryDelayMillis : Nat := 64

/-- Initial value of the `retries` counter in the watch-session loop of
`spawn` (`let mut retries = 30`). -/
def watchInitRetries : Nat := 30

/-- The watch-session connection loop of `LocalUdsInstanceSpec::spawn`.
`res k` is the outcome of the `client.watch()` call on attempt number `k`
(counting from 0; `some w` = `Ok`, the session handle abstracted to `Nat`).
The source attempts; on success breaks; if `retries < 1` fails
`WatchInitTimeout`; else decrements `retries`, sleeps, and loops. The case
split on `retries` is lifted above the attempt here (the attempt's outcome
does not depend on the counter), which gives the same function: with the
counter at 0 a failed attempt times out, otherwise it decrements and
retries. -/
def watchAttemptLoop (res : Nat → Option Nat) : Nat → Nat → Except LocalUdsInstanceError Nat
  | k, 0 =>
    match res k with
    | some w => Except.ok w
    | none => Except.error LocalUdsInstanceError.watchInitTimeout
  | k, r + 1 =>
    match res k with
    | some w => Except.ok w
    | none => watchAttemptLoop res (k + 1) r

/-- The watch block of `spawn`: run the attempt loop from attempt 0 with the
counter at `watchInitRetries = 30`. -/
def establishWatch (res : Nat → Option Nat) : Except LocalUdsInstanceError Nat :=
  watchAttemptLoop res 0 watchInitRetries

/-- The first-ping step of `spawn`
(`watch_progress.next().await.ok_or(WatchClosed)??`): a closed stream
(`none`) is `WatchClosed`; an item carrying a stream error propagates it;
a ping proceeds. -/
def awaitFirstPing (firstPing : Option (Except Nat Unit)) :
    Except LocalUdsInstanceError Unit :=
  match firstPing with
  | none => Except.error LocalUdsInstanceError.watchClosed
  | some (Except.error e) => Except.error (LocalUdsInstanceError.watch e)
  | some (Except.ok ()) => Except.ok ()

/-- The handshake portion of `spawn` after the backend runtime has started:
establish the watch session with bounded retry, then block for the first
liveness ping. Returns the watch-session handle. -/
def spawnHandshake (res : Nat → Option Nat) (firstPing : Option (Except Nat Unit)) :
    Except LocalUdsInstanceError Nat :=
  match establishWatch res with
  | Except.error e => Except.error e
  | Except.ok w =>
    match awaitFirstPing firstPing with
    | Except.error e => Except.error e
    | Except.ok () => Except.ok w

/-- Modelled from the spec: `lifeguard.rs` is not under `src/`. Releasing a
checkout guard always routes its instance into a Drop task via
`push_drop_task_to_work_queue` (spec section 4.5). -/
def releaseGuard {I : Type} (b : SpecModel I) (s : PoolNoodleInner I) (g : LifeGuard I) :
    PoolNoodleInner I :=
  pushDropTaskToWorkQueue b s g.inst

/-! ## Helper lemmas -/

/-- Anything `getLoop` reports as an error is the pool-starved error. -/
theorem getLoop_error_eq_starved {I E : Type} (healthy : I → Bool) (R : Nat) :
    ∀ (pops : List (Option I)) (r : Nat) (e : PoolNoodleError E),
    getLoop healthy R r pops = some (Except.error e) →
    e = PoolNoodleError.executionPoolStarved := by
  intro pops
  induction pops with
  | nil =>
    intro r e h
    rw [getLoop.eq_def] at h
    by_cases hr : R ≤ r
    · simp [hr] at h
      exact h.symm
    · simp [hr] at h
  | cons p rest ih =>
    intro r e h
    rw [getLoop.eq_def] at h
    by_cases hr : R ≤ r
    · simp [hr] at h
      exact h.symm
    · rcases p with _ | inst
      · simp [hr] at h
        exact ih (r + 1) e h
      · by_cases hh : healthy inst
        · simp [hr, hh] at h
        · simp [hr, hh] at h
          exact ih r e h

/-! ## Claims -/

/-- C1: for retry limit `R`, `get`'s loop fails pool-starved once `R`
credits are spent (checked before popping); an empty pop consumes one
credit (and sleeps `getRetryDelayMillis`); a popped unhealthy instance is
discarded and retried without consuming a credit; a popped healthy instance
is returned as a checkout guard. -/
theorem c1_get_retry_and_checkout {I E : Type} (healthy : I → Bool) (R r : Nat)
    (i : I) (rest pops : List (Option I)) :
    (R ≤ r →
      @getLoop I E healthy R r pops =
        some (Except.error PoolNoodleError.executionPoolStarved)) ∧
    (r < R →
      @getLoop I E healthy R r (none :: rest) = @getLoop I E healthy R (r + 1) rest) ∧
    (r < R → healthy i = false →
      @getLoop I E healthy R r (some i :: rest) = @getLoop I E healthy R r rest) ∧
    (r < R → healthy i = true →
      @getLoop I E healthy R r (some i :: rest) = some (Except.ok { inst := i })) := by
  refine ⟨?_, ?_, ?_, ?_⟩
  · intro h
    rw [getLoop.eq_def]
    simp [h]
  · intro h
    rw [getLoop.eq_def]
    simp [Nat.not_le.mpr h]
  · intro h hh
    rw [getLoop.eq_def]
    simp [Nat.not_le.mpr h, hh]
  · intro h hh
    rw [getLoop.eq_def]
    simp [Nat.not_le.mpr h, hh]

/-- C1 witness: the four branches at concrete inputs (retry limit 2). -/
theorem c1_get_retry_and_checkout_witness :
    @getLoop Nat Unit (fun n => n == 1) 2 2 [some 1] =
      some (Except.error PoolNoodleError.executionPoolStarved) ∧
    @getLoop Nat Unit (fun n => n == 1) 2 0 [none] =
      @getLoop Nat Unit (fun n => n == 1) 2 1 [] ∧
    @getLoop Nat Unit (fun n => n == 1) 2 0 [some 0] =
      @getLoop Nat Unit (fun n => n == 1) 2 0 [] ∧
    @getLoop Nat Unit (fun n => n == 1) 2 0 [some 1] =
      some (Except.ok { inst := 1 }) :=
  ⟨(c1_get_retry_and_checkout (fun n => n == 1) 2 2 1 [] [some 1]).1 (by decide),
   (c1_get_retry_and_checkout (fun n => n == 1) 2 0 1 [] []).2.1 (by decide),
   (c1_get_retry_and_checkout (fun n => n == 1) 2 0 0 [] []).2.2.1 (by decide) (by decide),
   (c1_get_retry_and_checkout (fun n => n == 1) 2 0 1 [] []).2.2.2 (by decide) (by decide)⟩

/-- C2: a Clean task whose backend clean succeeds enqueues Prepare(id) and
whose clean fails re-enqueues Clean(id); a Prepare task runs prepare then
immediately spawn, pushing the instance to the ready queue on spawn success,
and re-enqueues Clean(id) on either prepare or spawn failure. -/
theorem c2_clean_prepare_transitions {I : Type} (b : SpecModel I)
    (s : PoolNoodleInner I) (id : Nat) (inst : I) :
    (b.clean id = true → handleClean b s id = pushPrepareTaskToWorkQueue s id) ∧
    (b.clean id = false → handleClean b s id = pushCleanTaskToWorkQueue s id) ∧
    (b.prepare id = true → b.spawn id = some inst →
      handlePrepare b s id = pushToReadyQueue s inst) ∧
    (b.prepare id = true → b.spawn id = none →
      handlePrepare b s id = pushCleanTaskToWorkQueue s id) ∧
    (b.prepare id = false → handlePrepare b s id = pushCleanTaskToWorkQueue s id) := by
  refine ⟨?_, ?_, ?_, ?_, ?_⟩
  · intro h
    simp [handleClean, h]
  · intro h
    simp [handleClean, h]
  · intro hp hs
    simp [handlePrepare, hp, hs]
  · intro hp hs
    simp [handlePrepare, hp, hs]
  · intro hp
    simp [handlePrepare, hp]

/-- C2 witness: all five transitions at concrete backends and state. -/
theorem c2_clean_prepare_transitions_witness :
    (handleClean
      { clean := fun n => n == 1, prepare := fun n => n == 1,
        spawn := fun n => if n == 1 then some n else none,
        terminate := fun _ => true, instId := fun n => n }
      { workCapacity := 2, readyCapacity := 2, workQueue := [], readyQueue := [],
        retryLimit := 1 } 1 =
      pushPrepareTaskToWorkQueue
        { workCapacity := 2, readyCapacity := 2, workQueue := [], readyQueue := [],
          retryLimit := 1 } 1) ∧
    (handleClean
      { clean := fun n => n == 1, prepare := fun n => n == 1,
        spawn := fun n => if n == 1 then some n else none,
        terminate := fun _ => true, instId := fun n => n }
      { workCapacity := 2, readyCapacity := 2, workQueue := [], readyQueue := [],
        retryLimit := 1 } 2 =
      pushCleanTaskToWorkQueue
        { workCapacity := 2, readyCapacity := 2, workQueue := [], readyQueue := [],
          retryLimit := 1 } 2) ∧
    (handlePrepare
      { clean := fun n => n == 1, prepare := fun n => n == 1,
        spawn := fun n => if n == 1 then some n else none,
        terminate := fun _ => true, instId := fun n => n }
      { workCapacity := 2, readyCapacity := 2, workQueue := [], readyQueue := [],
        retryLimit := 1 } 1 =
      pushToReadyQueue
        { workCapacity := 2, readyCapacity := 2, workQueue := [], readyQueue := [],
          retryLimit := 1 } 1) ∧
    (handlePrepare
      { clean := fun _ => true, prepare := fun _ => true, spawn := fun _ => none,
        terminate := fun _ => true, instId := fun n => n }
      { workCapacity := 2, readyCapacity := 2, workQueue := [], readyQueue := [],
        retryLimit := 1 } 1 =
      pushCleanTaskToWorkQueue
        { workCapacity := 2, readyCapacity := 2, workQueue := [], readyQueue := [],
          retryLimit := 1 } 1) ∧
    (handlePrepare
      { clean := fun n => n == 1, prepare := fun n => n == 1,
        spawn := fun n => if n == 1 then some n else none,
        terminate := fun _ => true, instId := fun n => n }
      { workCapacity := 2, readyCapacity := 2, workQueue := [], readyQueue := [],
        retryLimit := 1 } 2 =
      pushCleanTaskToWorkQueue
        { workCapacity := 2, readyCapacity := 2, workQueue := [], readyQueue := [],
          retryLimit := 1 } 2) :=
  ⟨(c2_clean_prepare_transitions _ _ 1 1).1 (by decide),
   (c2_clean_prepare_transitions _ _ 2 2).2.1 (by decide),
   (c2_clean_prepare_transitions _ _ 1 1).2.2.1 (by decide) (by decide),
   (c2_clean_prepare_transitions _ _ 1 1).2.2.2.1 (by decide) (by decide),
   (c2_clean_prepare_transitions _ _ 2 2).2.2.2.2 (by decide)⟩

/-- C3: a Drop task whose terminate succeeds re-enqueues Clean for the
task's id; a failed terminate only logs — the state is unchanged, so no
task for that id is enqueued and the slot leaves the lifecycle. -/
theorem c3_drop_transitions {I : Type} (b : SpecModel I) (s : PoolNoodleInner I)
    (inst : I) (id : Nat) :
    (b.terminate inst = true → handleDrop b s inst id = pushCleanTaskToWorkQueue s id) ∧
    (b.terminate inst = false → handleDrop b s inst id = s) := by
  constructor
  · intro h
    simp [handleDrop, h]
  · intro h
    simp [handleDrop, h]

/-- C3 witness: both terminate outcomes at concrete inputs. -/
theorem c3_drop_transitions_witness :
    (handleDrop
      { clean := fun _ => true, prepare := fun _ => true, spawn := fun _ => none,
        terminate := fun n => n == 1, instId := fun n => n }
      { workCapacity := 2, readyCapacity := 2, workQueue := [], readyQueue := [],
        retryLimit := 1 } 1 1 =
      pushCleanTaskToWorkQueue
        { workCapacity := 2, readyCapacity := 2, workQueue := [], readyQueue := [],
          retryLimit := 1 } 1) ∧
    (handleDrop
      { clean := fun _ => true, prepare := fun _ => true, spawn := fun _ => none,
        terminate := fun n => n == 1, instId := fun n => n }
      { workCapacity := 2, readyCapacity := 2, workQueue := [], readyQueue := [],
        retryLimit := 1 } 2 2 =
      { workCapacity := 2, readyCapacity := 2, workQueue := [], readyQueue := [],
        retryLimit := 1 }) :=
  ⟨(c3_drop_transitions _ _ 1 1).1 (by decide),
   (c3_drop_transitions _ _ 2 2).2 (by decide)⟩

/-- C10: with `retry_limit = 0`, the exhaustion check at the top of the loop
fires before the first pop, so `get` returns the pool-starved error on every
pop trace — even one offering healthy instances. -/
theorem c10_zero_retry_limit_starves {I E : Type} (healthy : I → Bool)
    (pops : List (Option I)) :
    @PoolNoodle.get I E healthy 0 pops =
      some (Except.error PoolNoodleError.executionPoolStarved) := by
  rw [PoolNoodle.get, getLoop.eq_def]
  simp

/-- C4 counterexample: the claim says every backend-lifecycle error is
converted into a retry, but a Drop task whose terminate fails enqueues
nothing: with a backend whose terminate always fails and an empty work
queue, handling the drop of instance 7 leaves the work queue empty — no
retry task exists. -/
theorem c4_counterexample :
    ¬ (∀ (b : SpecModel Nat) (s : PoolNoodleInner Nat) (inst id : Nat),
        b.terminate inst = false →
        ∃ t, t ∈ (handleDrop b s inst id).workQueue ∧ t ∉ s.workQueue) := by
  intro hclaim
  rcases hclaim
      { clean := fun _ => true, prepare := fun _ => true, spawn := fun _ => none,
        terminate := fun _ => false, instId := fun n => n }
      { workCapacity := 1, readyCapacity := 1, workQueue := [], readyQueue := [],
        retryLimit := 0 } 7 7 rfl with ⟨t, ht, hnt⟩
  simp [handleDrop] at ht

/-- C4 amended: clean, prepare and spawn failures are absorbed at the task
boundary and converted into a Clean retry; a terminate failure is absorbed
without a retry (the state is unchanged); no handler surfaces an error, and
the only error `get` can ever return is the pool-starved error. -/
theorem c4_error_absorption {I E : Type} (b : SpecModel I) (s : PoolNoodleInner I)
    (id : Nat) (inst : I) (healthy : I → Bool) (R r : Nat)
    (pops : List (Option I)) (e : PoolNoodleError E) :
    (b.clean id = false → handleClean b s id = pushCleanTaskToWorkQueue s id) ∧
    (b.prepare id = false → handlePrepare b s id = pushCleanTaskToWorkQueue s id) ∧
    (b.prepare id = true → b.spawn id = none →
      handlePrepare b s id = pushCleanTaskToWorkQueue s id) ∧
    (b.terminate inst = false → handleDrop b s inst id = s) ∧
    (@getLoop I E healthy R r pops = some (Except.error e) →
      e = PoolNoodleError.executionPoolStarved) := by
  refine ⟨?_, ?_, ?_, ?_, ?_⟩
  · intro h
    simp [handleClean, h]
  · intro h
    simp [handlePrepare, h]
  · intro hp hs
    simp [handlePrepare, hp, hs]
  · intro h
    simp [handleDrop, h]
  · exact getLoop_error_eq_starved healthy R pops r e

/-- C4 witness: each absorption branch at concrete inputs, and the
pool-starved error identity on a concrete exhausted trace. -/
theorem c4_error_absorption_witness :
    (handleClean
      { clean := fun _ => false, prepare := fun _ => false, spawn := fun _ => none,
        terminate := fun _ => false, instId := fun n => n }
      { workCapacity := 2, readyCapacity := 2, workQueue := [], readyQueue := [],
        retryLimit := 1 } 1 =
      pushCleanTaskToWorkQueue
        { workCapacity := 2, readyCapacity := 2, workQueue := [], readyQueue := [],
          retryLimit := 1 } 1) ∧
    (handlePrepare
      { clean := fun _ => false, prepare := fun _ => false, spawn := fun _ => none,
        terminate := fun _ => false, instId := fun n => n }
      { workCapacity := 2, readyCapacity := 2, workQueue := [], readyQueue := [],
        retryLimit := 1 } 1 =
      pushCleanTaskToWorkQueue
        { workCapacity := 2, readyCapacity := 2, workQueue := [], readyQueue := [],
          retryLimit := 1 } 1) ∧
    (handlePrepare
      { clean := fun _ => true, prepare := fun _ => true, spawn := fun _ => none,
        terminate := fun _ => true, instId := fun n => n }
      { workCapacity := 2, readyCapacity := 2, workQueue := [], readyQueue := [],
        retryLimit := 1 } 1 =
      pushCleanTaskToWorkQueue
        { workCapacity := 2, readyCapacity := 2, workQueue := [], readyQueue := [],
          retryLimit := 1 } 1) ∧
    (handleDrop
      { clean := fun _ => false, prepare := fun _ => false, spawn := fun _ => none,
        terminate := fun _ => false, instId := fun n => n }
      { workCapacity := 2, readyCapacity := 2, workQueue := [], readyQueue := [],
        retryLimit := 1 } 1 1 =
      { workCapacity := 2, readyCapacity := 2, workQueue := [], readyQueue := [],
        retryLimit := 1 }) ∧
    (PoolNoodleError.executionPoolStarved :
        PoolNoodleError Unit) = PoolNoodleError.executionPoolStarved :=
  ⟨(@c4_error_absorption Nat Unit
      { clean := fun _ => false, prepare := fun _ => false, spawn := fun _ => none,
        terminate := fun _ => false, instId := fun n => n }
      { workCapacity := 2, readyCapacity := 2, workQueue := [], readyQueue := [],
        retryLimit := 1 } 1 1 (fun n => n == 1) 1 1 []
      PoolNoodleError.executionPoolStarved).1 (by decide),
   (@c4_error_absorption Nat Unit
      { clean := fun _ => false, prepare := fun _ => false, spawn := fun _ => none,
        terminate := fun _ => false, instId := fun n => n }
      { workCapacity := 2, readyCapacity := 2, workQueue := [], readyQueue := [],
        retryLimit := 1 } 1 1 (fun n => n == 1) 1 1 []
      PoolNoodleError.executionPoolStarved).2.1 (by decide),
   (@c4_error_absorption Nat Unit
      { clean := fun _ => true, prepare := fun _ => true, spawn := fun _ => none,
        terminate := fun _ => true, instId := fun n => n }
      { workCapacity := 2, readyCapacity := 2, workQueue := [], readyQueue := [],
        retryLimit := 1 } 1 1 (fun n => n == 1) 1 1 []
      PoolNoodleError.executionPoolStarved).2.2.1 (by decide) (by decide),
   (@c4_error_absorption Nat Unit
      { clean := fun _ => false, prepare := fun _ => false, spawn := fun _ => none,
        terminate := fun _ => false, instId := fun n => n }
      { workCapacity := 2, readyCapacity := 2, workQueue := [], readyQueue := [],
        retryLimit := 1 } 1 1 (fun n => n == 1) 1 1 []
      PoolNoodleError.executionPoolStarved).2.2.2.1 (by decide),
   (@c4_error_absorption Nat Unit
      { clean := fun _ => false, prepare := fun _ => false, spawn := fun _ => none,
        terminate := fun _ => false, instId := fun n => n }
      { workCapacity := 2, readyCapacity := 2, workQueue := [], readyQueue := [],
        retryLimit := 1 } 1 1 (fun n => n == 1) 1 1 []
      PoolNoodleError.executionPoolStarved).2.2.2.2 rfl⟩

/-- C5: `ensure_healthy` fails exactly when the watch shutdown channel is
closed or the remaining-request counter is `Some(0)`; an unset counter
never counts as exhausted and is never decremented; handling a unit of work
(`dispatchExecution`) applies `count_request`, which decrements a set
counter with saturation at zero. -/
theorem c5_ensure_healthy (i : LocalUdsInstance) :
    ((∃ e, i.ensureHealthy = Except.error e) ↔
      (i.watchShutdownTxClosed = true ∨ i.limitRequests = some 0)) ∧
    (i.limitRequests = none →
      i.hasRemainingRequests = true ∧ i.countRequest.limitRequests = none) ∧
    (∀ n, i.limitRequests = some n →
      i.countRequest.limitRequests = some (n - 1)) ∧
    (i.limitRequests = some 0 → i.countRequest.limitRequests = some 0) ∧
    (i.ensureHealthy = Except.ok () →
      i.dispatchExecution = Except.ok i.countRequest) := by
  obtain ⟨lr, rt, cl⟩ := i
  have hsplit : lr = none ∨ lr = some 0 ∨ ∃ m, lr = some (m + 1) := by
    rcases lr with _ | n
    · exact Or.inl rfl
    · rcases n with _ | m
      · exact Or.inr (Or.inl rfl)
      · exact Or.inr (Or.inr ⟨m, rfl⟩)
  rcases hsplit with h | h | ⟨m, h⟩ <;> subst h <;> cases cl <;>
    simp [LocalUdsInstance.ensureHealthy, LocalUdsInstance.ensureHealthyClient,
      LocalUdsInstance.isWatchShutdownOpen, LocalUdsInstance.hasRemainingRequests,
      LocalUdsInstance.countRequest, LocalUdsInstance.dispatchExecution]

/-- C5 witness: the counter behaviors at concrete instances. -/
theorem c5_ensure_healthy_witness :
    (LocalUdsInstance.hasRemainingRequests
        { limitRequests := none,
          runtime := LocalInstanceRuntime.process { socket := 0 },
          watchShutdownTxClosed := false } = true ∧
      (LocalUdsInstance.countRequest
        { limitRequests := none,
          runtime := LocalInstanceRuntime.process { socket := 0 },
          watchShutdownTxClosed := false }).limitRequests = none) ∧
    (LocalUdsInstance.countRequest
      { limitRequests := some 2,
        runtime := LocalInstanceRuntime.process { socket := 0 },
        watchShutdownTxClosed := false }).limitRequests = some 1 ∧
    (LocalUdsInstance.countRequest
      { limitRequests := some 0,
        runtime := LocalInstanceRuntime.process { socket := 0 },
        watchShutdownTxClosed := false }).limitRequests = some 0 ∧
    LocalUdsInstance.dispatchExecution
      { limitRequests := some 2,
        runtime := LocalInstanceRuntime.process { socket := 0 },
        watchShutdownTxClosed := false } =
      Except.ok (LocalUdsInstance.countRequest
        { limitRequests := some 2,
          runtime := LocalInstanceRuntime.process { socket := 0 },
          watchShutdownTxClosed := false }) :=
  ⟨(c5_ensure_healthy
      { limitRequests := none,
        runtime := LocalInstanceRuntime.process { socket := 0 },
        watchShutdownTxClosed := false }).2.1 rfl,
   (c5_ensure_healthy
      { limitRequests := some 2,
        runtime := LocalInstanceRuntime.process { socket := 0 },
        watchShutdownTxClosed := false }).2.2.1 2 rfl,
   (c5_ensure_healthy
      { limitRequests := some 0,
        runtime := LocalInstanceRuntime.process { socket := 0 },
        watchShutdownTxClosed := false }).2.2.2.1 rfl,
   (c5_ensure_healthy
      { limitRequests := some 2,
        runtime := LocalInstanceRuntime.process { socket := 0 },
        watchShutdownTxClosed := false }).2.2.2.2 rfl⟩

/-- Seeding Clean tasks with enough free capacity appends exactly one Clean
task per id, in order. -/
theorem seedCleanTasks_eq {I : Type} :
    ∀ (ids : List Nat) (s : PoolNoodleInner I),
    s.workQueue.length + ids.length ≤ s.workCapacity →
    seedCleanTasks s ids =
      { s with workQueue := s.workQueue ++ ids.map PoolNoodleTaskType.clean } := by
  intro ids
  induction ids with
  | nil =>
    intro s h
    simp [seedCleanTasks]
  | cons id rest ih =>
    intro s h
    have hlt : s.workQueue.length < s.workCapacity := by
      simp at h
      omega
    have hpush : pushCleanTaskToWorkQueue s id =
        { s with workQueue := s.workQueue ++ [PoolNoodleTaskType.clean id] } := by
      simp [pushCleanTaskToWorkQueue, boundedPush, hlt]
    rw [seedCleanTasks, hpush, ih]
    · simp
    · simp
      simp at h
      omega

/-- C8: pool construction seeds the work queue with exactly the Clean tasks
for ids `1, 2, ..., pool_size` (in order, one each) and places nothing in
the ready queue. -/
theorem c8_construction_seeds_clean {I : Type} (config : PoolNoodleConfig) :
    (@PoolNoodle.new I config).workQueue =
      (List.range' 1 config.poolSize).map PoolNoodleTaskType.clean ∧
    (@PoolNoodle.new I config).readyQueue = [] := by
  have hcap : (@PoolNoodleInner.new I config).workQueue.length +
      (List.range' 1 config.poolSize).length ≤
      (@PoolNoodleInner.new I config).workCapacity := by
    simp [PoolNoodleInner.new]
  have h := seedCleanTasks_eq (List.range' 1 config.poolSize)
    (@PoolNoodleInner.new I config) hcap
  constructor
  · rw [PoolNoodle.new, h]
    simp [PoolNoodleInner.new]
  · rw [PoolNoodle.new, h]
    simp [PoolNoodleInner.new]

/-- A bounded push never leaves the queue above its capacity. -/
theorem boundedPush_length_le {α : Type} (cap : Nat) (q : List α) (x : α)
    (h : q.length ≤ cap) : (boundedPush cap q x).length ≤ cap := by
  unfold boundedPush
  split
  next hlt =>
    simp
    omega
  next =>
    exact h

/-- Handling any task preserves both capacities and both queue bounds. -/
theorem handleTask_queue_bounds {I : Type} (b : SpecModel I) (s : PoolNoodleInner I)
    (task : PoolNoodleTaskType I)
    (hw : s.workQueue.length ≤ s.workCapacity)
    (hr : s.readyQueue.length ≤ s.readyCapacity) :
    (handleTask b s task).workCapacity = s.workCapacity ∧
    (handleTask b s task).readyCapacity = s.readyCapacity ∧
    (handleTask b s task).workQueue.length ≤ s.workCapacity ∧
    (handleTask b s task).readyQueue.length ≤ s.readyCapacity := by
  cases task with
  | clean id =>
    simp only [handleTask, handleClean]
    split
    · exact ⟨rfl, rfl, boundedPush_length_le _ _ _ hw, hr⟩
    · exact ⟨rfl, rfl, boundedPush_length_le _ _ _ hw, hr⟩
  | drop inst id =>
    simp only [handleTask, handleDrop]
    split
    · exact ⟨rfl, rfl, boundedPush_length_le _ _ _ hw, hr⟩
    · exact ⟨rfl, rfl, hw, hr⟩
  | prepare id =>
    simp only [handleTask, handlePrepare]
    split
    · rcases hs : b.spawn id with _ | inst <;> simp only [hs]
      · exact ⟨rfl, rfl, boundedPush_length_le _ _ _ hw, hr⟩
      · exact ⟨rfl, rfl, hw, boundedPush_length_le _ _ _ hr⟩
    · exact ⟨rfl, rfl, boundedPush_length_le _ _ _ hw, hr⟩

/-- C9: both queues are created with capacity exactly `pool_size`; a push
against a full queue returns the queue unchanged (the element is dropped,
nothing blocks or errors); every task handler and every push preserves the
capacity bound, and the freshly constructed pool satisfies it. -/
theorem c9_bounded_queues {I : Type} (config : PoolNoodleConfig) (b : SpecModel I)
    (s : PoolNoodleInner I) (task : PoolNoodleTaskType I) (inst : I) :
    ((@PoolNoodleInner.new I config).workCapacity = config.poolSize ∧
     (@PoolNoodleInner.new I config).readyCapacity = config.poolSize) ∧
    (∀ (α : Type) (cap : Nat) (q : List α) (x : α),
      cap ≤ q.length → boundedPush cap q x = q) ∧
    (s.workQueue.length ≤ s.workCapacity → s.readyQueue.length ≤ s.readyCapacity →
      (handleTask b s task).workCapacity = s.workCapacity ∧
      (handleTask b s task).readyCapacity = s.readyCapacity ∧
      (handleTask b s task).workQueue.length ≤ s.workCapacity ∧
      (handleTask b s task).readyQueue.length ≤ s.readyCapacity) ∧
    (s.workQueue.length ≤ s.workCapacity →
      (pushDropTaskToWorkQueue b s inst).workQueue.length ≤ s.workCapacity) ∧
    (s.readyQueue.length ≤ s.readyCapacity →
      (pushToReadyQueue s inst).readyQueue.length ≤ s.readyCapacity) ∧
    ((@PoolNoodle.new I config).workQueue.length ≤
        (@PoolNoodle.new I config).workCapacity ∧
     (@PoolNoodle.new I config).readyQueue.length ≤
        (@PoolNoodle.new I config).readyCapacity) := by
  refine ⟨⟨rfl, rfl⟩, ?_, ?_, ?_, ?_, ?_⟩
  · intro α cap q x h
    unfold boundedPush
    split
    next hlt => omega
    next => rfl
  · intro hw hr
    exact handleTask_queue_bounds b s task hw hr
  · intro hw
    exact boundedPush_length_le _ _ _ hw
  · intro hr
    exact boundedPush_length_le _ _ _ hr
  · have hcap : (@PoolNoodleInner.new I config).workQueue.length +
        (List.range' 1 config.poolSize).length ≤
        (@PoolNoodleInner.new I config).workCapacity := by
      simp [PoolNoodleInner.new]
    have h := seedCleanTasks_eq (List.range' 1 config.poolSize)
      (@PoolNoodleInner.new I config) hcap
    rw [PoolNoodle.new, h]
    constructor
    · simp [PoolNoodleInner.new]
    · simp [PoolNoodleInner.new]

/-- C9 witness: the bound facts at a concrete pool of size 2 with a full
work queue. -/
theorem c9_bounded_queues_witness :
    ((@PoolNoodleInner.new Nat
        { checkHealth := false, maxConcurrency := 1, poolSize := 2,
          retryLimit := 1 }).workCapacity = 2 ∧
     (@PoolNoodleInner.new Nat
        { checkHealth := false, maxConcurrency := 1, poolSize := 2,
          retryLimit := 1 }).readyCapacity = 2) ∧
    boundedPush 2 [PoolNoodleTaskType.clean 1, PoolNoodleTaskType.clean 2]
      (PoolNoodleTaskType.clean (I := Nat) 3) =
      [PoolNoodleTaskType.clean 1, PoolNoodleTaskType.clean 2] ∧
    (handleTask
      { clean := fun _ => true, prepare := fun _ => true, spawn := fun _ => none,
        terminate := fun _ => true, instId := fun n => n }
      { workCapacity := 2, readyCapacity := 2,
        workQueue := [PoolNoodleTaskType.clean 1, PoolNoodleTaskType.clean 2],
        readyQueue := [], retryLimit := 1 }
      (PoolNoodleTaskType.clean 1)).workQueue.length ≤ 2 :=
  ⟨(c9_bounded_queues
      { checkHealth := false, maxConcurrency := 1, poolSize := 2, retryLimit := 1 }
      { clean := fun _ => true, prepare := fun _ => true, spawn := fun _ => none,
        terminate := fun _ => true, instId := fun n => n }
      { workCapacity := 2, readyCapacity := 2,
        workQueue := [PoolNoodleTaskType.clean 1, PoolNoodleTaskType.clean 2],
        readyQueue := [], retryLimit := 1 }
      (PoolNoodleTaskType.clean 1) 0).1,
   (c9_bounded_queues
      { checkHealth := false, maxConcurrency := 1, poolSize := 2, retryLimit := 1 }
      { clean := fun _ => true, prepare := fun _ => true, spawn := fun _ => none,
        terminate := fun _ => true, instId := fun n => n }
      { workCapacity := 2, readyCapacity := 2,
        workQueue := [PoolNoodleTaskType.clean 1, PoolNoodleTaskType.clean 2],
        readyQueue := [], retryLimit := 1 }
      (PoolNoodleTaskType.clean 1) 0).2.1 (PoolNoodleTaskType Nat) 2
      [PoolNoodleTaskType.clean 1, PoolNoodleTaskType.clean 2]
      (PoolNoodleTaskType.clean 3) (by decide),
   ((c9_bounded_queues
      { checkHealth := false, maxConcurrency := 1, poolSize := 2, retryLimit := 1 }
      { clean := fun _ => true, prepare := fun _ => true, spawn := fun _ => none,
        terminate := fun _ => true, instId := fun n => n }
      { workCapacity := 2, readyCapacity := 2,
        workQueue := [PoolNoodleTaskType.clean 1, PoolNoodleTaskType.clean 2],
        readyQueue := [], retryLimit := 1 }
      (PoolNoodleTaskType.clean 1) 0).2.2.1 (by decide) (by decide)).2.2.1⟩

/-- If every attempt in the loop's window fails, the watch loop times out.
Starting at attempt `k` with `retries` remaining, the window is
`k, k+1, ..., k+retries`. -/
theorem watchAttemptLoop_timeout (res : Nat → Option Nat) :
    ∀ (retries k : Nat), (∀ j, k ≤ j → j ≤ k + retries → res j = none) →
    watchAttemptLoop res k retries =
      Except.error LocalUdsInstanceError.watchInitTimeout := by
  intro retries
  induction retries with
  | zero =>
    intro k h
    have h0 : res k = none := h k le_rfl (by omega)
    simp [watchAttemptLoop, h0]
  | succ r ih =>
    intro k h
    have h0 : res k = none := h k le_rfl (by omega)
    simp only [watchAttemptLoop, h0]
    exact ih (k + 1) (fun j hj1 hj2 => h j (by omega) (by omega))

/-- If the first success lies within the retry budget, the watch loop
returns it: attempts `k, ..., k+m-1` fail, attempt `k+m` succeeds,
`m ≤ retries`. -/
theorem watchAttemptLoop_success (res : Nat → Option Nat) :
    ∀ (m k retries w : Nat), (∀ j, j < m → res (k + j) = none) →
    res (k + m) = some w → m ≤ retries →
    watchAttemptLoop res k retries = Except.ok w := by
  intro m
  induction m with
  | zero =>
    intro k retries w hnone hsucc hle
    simp only [Nat.add_zero] at hsucc
    rcases retries with _ | r <;> simp [watchAttemptLoop, hsucc]
  | succ m ih =>
    intro k retries w hnone hsucc hle
    have h0 : res k = none := by
      have h1 := hnone 0 (by omega)
      simpa using h1
    rcases retries with _ | r
    · omega
    · simp only [watchAttemptLoop, h0]
      refine ih (k + 1) r w ?_ ?_ (by omega)
      · intro j hj
        have h2 := hnone (j + 1) (by omega)
        have h3 : k + 1 + j = k + (j + 1) := by omega
        rw [h3]
        exact h2
      · have h3 : k + 1 + m = k + (m + 1) := by omega
        rw [h3]
        exact hsucc

/-- C6 counterexample: the first 30 watch-session attempts (indices 0..29)
all fail, yet the spawn connection loop succeeds — it makes a 31st attempt
— so the session is not abandoned after at most 30 attempts, contradicting
the claimed bound under which this input would have to produce the
handshake-timeout error. -/
theorem c6_counterexample :
    ((List.range 30).all fun j =>
      ((fun k => if k == 30 then some 7 else none) j).isNone) = true ∧
    establishWatch (fun k => if k == 30 then some 7 else none) = Except.ok 7 :=
  ⟨rfl, rfl⟩

/-- C6 amended: the liveness (watch) session is opened with bounded retry —
at most 31 attempts (one initial plus up to `watchInitRetries = 30`
retries), with a `watchRetryDelayMillis = 64` ms sleep between consecutive
attempts; exhaustion of all 31 produces the fatal handshake-timeout error,
a first success within the budget is returned, and once the session is
open, the stream closing before the first liveness ping produces the fatal
handshake-closed error. -/
theorem c6_watch_handshake (res : Nat → Option Nat) (w k : Nat) :
    watchInitRetries = 30 ∧ watchRetryDelayMillis = 64 ∧
    ((∀ j, j ≤ 30 → res j = none) →
      establishWatch res = Except.error LocalUdsInstanceError.watchInitTimeout) ∧
    (k ≤ 30 → (∀ j, j < k → res j = none) → res k = some w →
      establishWatch res = Except.ok w) ∧
    (establishWatch res = Except.ok w →
      spawnHandshake res none = Except.error LocalUdsInstanceError.watchClosed) ∧
    awaitFirstPing none = Except.error LocalUdsInstanceError.watchClosed := by
  refine ⟨rfl, rfl, ?_, ?_, ?_, rfl⟩
  · intro h
    exact watchAttemptLoop_timeout res 30 0 (fun j hj1 hj2 => h j (by omega))
  · intro hk hnone hsucc
    refine watchAttemptLoop_success res k 0 30 w ?_ ?_ hk
    · intro j hj
      simpa using hnone j hj
    · simpa using hsucc
  · intro h
    simp [spawnHandshake, h, awaitFirstPing]

/-- C6 witness: timeout on an all-failing trace, success on attempt index
3, and handshake-closed when the ping stream is closed. -/
theorem c6_watch_handshake_witness :
    establishWatch (fun _ => none) =
      Except.error LocalUdsInstanceError.watchInitTimeout ∧
    establishWatch (fun j => if j == 3 then some 5 else none) = Except.ok 5 ∧
    spawnHandshake (fun j => if j == 3 then some 5 else none) none =
      Except.error LocalUdsInstanceError.watchClosed :=
  ⟨(c6_watch_handshake (fun _ => none) 5 3).2.2.1 (fun j hj => rfl),
   (c6_watch_handshake (fun j => if j == 3 then some 5 else none) 5 3).2.2.2.1
     (by omega) (fun j hj => by interval_cases j <;> rfl) rfl,
   (c6_watch_handshake (fun j => if j == 3 then some 5 else none) 5 3).2.2.2.2.1 rfl⟩

/-- C7 counterexample: a process-backend runtime built for slot id 5
reports id() = 0, not 5, so the Drop task of an instance spawned under slot
5 does not re-enqueue Clean for slot 5. -/
theorem c7_counterexample :
    (runtimeInstanceFromSpec LocalUdsRuntimeStrategy.localProcess 0 0 5).id = 0 ∧
    ¬ (runtimeInstanceFromSpec LocalUdsRuntimeStrategy.localProcess 0 0 5).id = 5 :=
  ⟨rfl, by decide⟩

/-- C7 amended: only the micro-VM (firecracker) runtime reports id() equal
to the spawn id; the process and container runtimes always report 0 (their
builders never receive the slot id). An instance reports its runtime's id;
releasing a guard enqueues a Drop task carrying instance.id(), and handling
that task after a successful terminate re-enqueues Clean for exactly that
id. -/
theorem c7_instance_id {I : Type} (socket containerId id : Nat)
    (b : SpecModel I) (s : PoolNoodleInner I) (g : LifeGuard I)
    (i : LocalUdsInstance) :
    (runtimeInstanceFromSpec LocalUdsRuntimeStrategy.localFirecracker
      socket containerId id).id = id ∧
    (runtimeInstanceFromSpec LocalUdsRuntimeStrategy.localProcess
      socket containerId id).id = 0 ∧
    (runtimeInstanceFromSpec LocalUdsRuntimeStrategy.localDocker
      socket containerId id).id = 0 ∧
    i.id = i.runtime.id ∧
    releaseGuard b s g = pushDropTaskToWorkQueue b s g.inst ∧
    (b.terminate g.inst = true →
      handleTask b s (PoolNoodleTaskType.drop g.inst (b.instId g.inst)) =
        pushCleanTaskToWorkQueue s (b.instId g.inst)) := by
  refine ⟨rfl, rfl, rfl, rfl, rfl, ?_⟩
  intro h
  simp [handleTask, handleDrop, h]

/-- C7 witness: the full release-drop-clean chain at slot id 5. -/
theorem c7_instance_id_witness :
    handleTask
      { clean := fun _ => true, prepare := fun _ => true, spawn := fun _ => none,
        terminate := fun _ => true, instId := fun n => n }
      { workCapacity := 2, readyCapacity := 2, workQueue := [], readyQueue := [],
        retryLimit := 1 }
      (PoolNoodleTaskType.drop 5 5) =
      pushCleanTaskToWorkQueue
        { workCapacity := 2, readyCapacity := 2, workQueue := [], readyQueue := [],
          retryLimit := 1 } 5 :=
  (c7_instance_id 0 0 5
    { clean := fun _ => true, prepare := fun _ => true, spawn := fun _ => none,
      terminate := fun _ => true, instId := fun n => n }
    { workCapacity := 2, readyCapacity := 2, workQueue := [], readyQueue := [],
      retryLimit := 1 }
    { inst := 5 }
    { limitRequests := none, runtime := LocalInstanceRuntime.process { socket := 0 },
      watchShutdownTxClosed := false }).2.2.2.2.2 rfl
